import Mathlib

/-!
# Lookout Garden Monitor — verification of the control-flow core

Shallow embedding of the concurrency/control-flow core of the Lookout garden
monitor (Python sources `camera_manager.py`, `lookout.py`, `gpio_manager.py`,
`settings.py`), together with theorems settling the specification claims.

Modelling conventions:
* Python `int` index arithmetic uses `Nat`/`Int`; Python's `%` on a possibly
  negative left operand with a positive modulus coincides with `Int.emod`.
* The fixed-length numpy frame array of `FrameBuffer` is modelled by its
  contents function `Nat → α` (only indices `< max_size + 1` are ever used;
  C9 proves exactly that).  Frames themselves are abstract: any type with a
  designated zero element (`np.zeros` / the cleared slot).
* `time.perf_counter()` timestamps are modelled as integers; only ordering
  and subtraction of timestamps matter to the control logic.
* Threads are modelled by explicit sequential interleavings at the
  granularity at which the Python threads actually communicate (flag writes
  happen between iterations of the video-write loop, which sleeps 0.2 s per
  iteration).
-/

namespace CameraManager

/-- `FrameBuffer` from `camera_manager.py` (lines 37–93): a numpy-array-backed
FIFO ring with `max_size + 1` slots (one sentinel slot so that full and empty
are distinguishable).  The numpy array is modelled by its contents function;
the `shape`/`dtype` guards of `push` are enforced by the Lean type `α` and so
have no counterpart here. -/
structure FrameBuffer (α : Type) where
  array : Nat → α
  write_index : Nat
  read_index : Nat
  max_size : Nat

variable {α : Type}

/-- `FrameBuffer.__init__` (lines 42–52): `np.zeros` array, both indices 0. -/
def FrameBuffer.init [Zero α] (max_size : Nat) : FrameBuffer α :=
  { array := fun _ => 0, write_index := 0, read_index := 0, max_size := max_size }

/-- The Python expression `(self.write_index - self.read_index) % (self.max_size + 1)`
(line 79), the number of frames currently held.  Python's `%` with a positive
modulus is `Int.emod`. -/
def FrameBuffer.occupancy (b : FrameBuffer α) : Int :=
  ((b.write_index : Int) - (b.read_index : Int)) % ((b.max_size : Int) + 1)

/-- The occupancy as a natural number. -/
def FrameBuffer.occNat (b : FrameBuffer α) : Nat :=
  b.occupancy.toNat

/-- `FrameBuffer.is_empty` (lines 54–58). -/
def FrameBuffer.is_empty (b : FrameBuffer α) : Bool :=
  b.write_index == b.read_index

/-- Writing one array slot (`self.array[i] = v`). -/
def setSlot (a : Nat → α) (i : Nat) (v : α) : Nat → α :=
  fun k => if k = i then v else a k

/-- `FrameBuffer.push` (lines 60–84): returns `False` (buffer unchanged) when
`(write_index - read_index) % (max_size + 1) >= max_size`, otherwise stores
the frame at `write_index` and increments it modulo `max_size + 1`. -/
def FrameBuffer.push (b : FrameBuffer α) (frame : α) : Bool × FrameBuffer α :=
  if b.occupancy ≥ (b.max_size : Int) then (false, b)
  else
    (true,
      { b with
        array := setSlot b.array b.write_index frame,
        write_index := (b.write_index + 1) % (b.max_size + 1) })

/-- `FrameBuffer.pop` (lines 86–93): copies the frame at `read_index`, wipes
that slot to zero, and increments `read_index` modulo `max_size + 1`. -/
def FrameBuffer.pop [Zero α] (b : FrameBuffer α) : α × FrameBuffer α :=
  (b.array b.read_index,
    { b with
      array := setSlot b.array b.read_index 0,
      read_index := (b.read_index + 1) % (b.max_size + 1) })

/-- Push a whole list of frames in order; first component is the conjunction
of all the individual `push` results. -/
def FrameBuffer.pushAll (b : FrameBuffer α) : List α → Bool × FrameBuffer α
  | [] => (true, b)
  | f :: fs =>
    let r := b.push f
    let r2 := r.2.pushAll fs
    (r.1 && r2.1, r2.2)

/-- Iterated `pop`, discarding the returned frames. -/
def FrameBuffer.popN [Zero α] : Nat → FrameBuffer α → FrameBuffer α
  | 0, b => b
  | k + 1, b => FrameBuffer.popN k (b.pop).2

/-- Structural well-formedness: both indices lie inside the `max_size + 1`
slots.  `__init__` establishes this and `push`/`pop` preserve it. -/
def FrameBuffer.WF (b : FrameBuffer α) : Prop :=
  b.write_index < b.max_size + 1 ∧ b.read_index < b.max_size + 1

/-- Every slot outside the occupied cyclic range `[read_index, read_index + occupancy)`
holds the zero frame (slots are zeroed at construction and each `pop` wipes
the consumed slot). -/
def FrameBuffer.ZeroOutside [Zero α] (b : FrameBuffer α) : Prop :=
  ∀ j : Nat, b.occNat ≤ j → j ≤ b.max_size →
    b.array ((b.read_index + j) % (b.max_size + 1)) = (0 : α)

/-- States reachable from a freshly constructed buffer through the public
interface (`push`/`pop`). -/
inductive FrameBuffer.Reachable [Zero α] : FrameBuffer α → Prop
  | init (N : Nat) : FrameBuffer.Reachable (FrameBuffer.init N)
  | push (b : FrameBuffer α) (f : α) :
      FrameBuffer.Reachable b → FrameBuffer.Reachable (b.push f).2
  | pop (b : FrameBuffer α) :
      FrameBuffer.Reachable b → FrameBuffer.Reachable (b.pop).2

/-- Joint state of the `CaptureWriter` video-write thread (`camera_manager.py`
lines 95–148) and the flags the main thread uses to talk to it.  `writerOpen`
models `self.writer is not None`; `written` records, in order, every frame
handed to `self.writer.write`. -/
structure WriterSt (α : Type) where
  buf : FrameBuffer α
  writerOpen : Bool
  close_flag : Bool
  shutdown_flag : Bool
  written : List α

/-- The inner drain loop of `CaptureWriter.run` (lines 138–139):
`while not self.frame_buffer.is_empty() and self.writer is not None:
self.writer.write(self.frame_buffer.pop())`.  Fuel-indexed; fuel
`max_size + 1` exceeds any possible occupancy. -/
def drainFuel [Zero α] : Nat → WriterSt α → WriterSt α
  | 0, s => s
  | fuel + 1, s =>
    if !s.buf.is_empty && s.writerOpen then
      let r := s.buf.pop
      drainFuel fuel { s with buf := r.2, written := s.written ++ [r.1] }
    else s

/-- One iteration of the body of the outer `while not self.shutdown_flag`
loop of `CaptureWriter.run` (lines 136–146): drain, then process a pending
`close_flag` by dropping the writer handle. -/
def writerCycle [Zero α] (s : WriterSt α) : WriterSt α :=
  let s1 := drainFuel (s.buf.max_size + 1) s
  if s1.close_flag then { s1 with writerOpen := false, close_flag := false } else s1

/-- `CaptureWriter.run` (lines 132–148), up to `fuel` iterations of the outer
loop: the `shutdown_flag` test happens at the top of every iteration, before
any draining. -/
def runFuel [Zero α] : Nat → WriterSt α → WriterSt α
  | 0, s => s
  | k + 1, s => if s.shutdown_flag then s else runFuel k (writerCycle s)

/-- `CaptureWriter.close_file` (lines 117–122), as called by `close()`
(line 205): marks the current file for closing. -/
def close_file (s : WriterSt α) : WriterSt α :=
  { s with close_flag := true }

/-- The flag write of `CaptureWriter.shutdown` (lines 124–130): sets
`shutdown_flag` (the join is the subsequent running of `runFuel`). -/
def requestShutdown (s : WriterSt α) : WriterSt α :=
  { s with shutdown_flag := true }

/-- `capture_frame` (lines 218–227).  `stream.read()` yields
`(success, frame-or-None)`; the code unconditionally overwrites the module
variable `raw_frame` with that result and immediately rotates it.  OpenCV's
`cv2.rotate` raises `cv2.error` on an empty (`None`) source, modelled as
`Except.error`; the `if not success: log.warn(...)` line is only reached on
the `ok` path of the read.  `prev` is the previous value of `raw_frame`; the
source never consults it. -/
def capture_frame (rotate : α → α) (read_result : Bool × Option α)
    (prev : Option α) : Except String (Option α) :=
  match read_result.2 with
  | none => Except.error "cv2.error: (-215) !_src.empty() in rotate"
  | some f => Except.ok (some (rotate f))

end CameraManager

namespace Lookout

/-- `State` enum from `lookout.py` (lines 55–59). -/
inductive State
  | INACTIVE
  | ACTIVE
  | SHUTTING_DOWN
deriving DecidableEq

/-- `on_pir_activated` (`lookout.py` lines 79–85): the PIR callback sets the
global state to `ACTIVE` unconditionally — it performs no check of the
current state. -/
def on_pir_activated (s : State) : State :=
  State.ACTIVE

/-- `on_power_btn_pressed` (`lookout.py` lines 87–96). -/
def on_power_btn_pressed (s : State) : State :=
  State.SHUTTING_DOWN

/-- `OBJECT_BLACKLIST` (`lookout.py` line 48). -/
def OBJECT_BLACKLIST : List String := ["cat", "person", "dog"]

/-- `OBJECT_WHITELIST` (`lookout.py` line 50). -/
def OBJECT_WHITELIST : List String := ["scissors"]

/-- `IDLE_TIME` (`lookout.py` line 45). -/
def IDLE_TIME : Int := 30

/-- `BUZZ_TIME` (`lookout.py` line 44). -/
def BUZZ_TIME : Int := 10

/-- The arming condition of `capture_video` (`lookout.py` line 127):
`any(item in OBJECT_BLACKLIST for item in labels) and
all(item1 not in OBJECT_WHITELIST for item1 in labels)`.
The block and allow lists are passed as parameters (they are module-level
constants in the source). -/
def armCondition (blacklist whitelist labels : List String) : Bool :=
  labels.any (fun item => blacklist.contains item) &&
    labels.all (fun item1 => !(whitelist.contains item1))

/-- The arming predicate exactly as the claim states it, for refinement
comparison only: alarm-output-enabled-by-config AND a block-list hit AND no
allow-list hit.  (The source control loop has no such enable input;
`settings.ENABLE_BUZZER` is never read by `lookout.py`.) -/
def claimArmCondition (enable : Bool) (blacklist whitelist labels : List String) : Bool :=
  enable && labels.any (fun item => blacklist.contains item) &&
    labels.all (fun item1 => !(whitelist.contains item1))

/-- The per-tick mutable state of `capture_video`: the global timers
(`lookout.py` lines 66–68) plus the buzzer output level set through
`gpio.set_buzzer_frequency` (`true` iff the last set frequency was
nonzero). -/
structure TickState where
  idle_timer : Int
  buzzer_timer : Int
  buzzerOn : Bool
deriving DecidableEq

/-- How one iteration of the `while True` loop of `capture_video` exits
(or continues). -/
inductive TickExit
  | continueLoop
  | sleepBufferFull
  | sleepIdle
  | shutdownExit
deriving DecidableEq

/-- The detection-gate and buzz-cutoff part of one `capture_video` loop
iteration (`lookout.py` lines 122–135): if any objects were detected, reset
the idle timer, and if the block/allow condition of line 127 holds, enable
the buzzer when `buzzer_timer == 0` and (re)start the buzzer timer; then
lines 132–135 turn the buzzer off once `BUZZ_TIME` has elapsed since the
timer was last set. -/
def tickGate (blacklist whitelist : List String) (buzzTime : Int)
    (s : TickState) (now : Int) (labels : List String) : TickState :=
  let s1 :=
    if labels.length > 0 then
      if armCondition blacklist whitelist labels then
        { idle_timer := now,
          buzzer_timer := now,
          buzzerOn := if s.buzzer_timer == 0 then true else s.buzzerOn }
      else { s with idle_timer := now }
    else s
  if s1.buzzer_timer != 0 && decide (now - s1.buzzer_timer ≥ buzzTime) then
    { s1 with buzzer_timer := 0, buzzerOn := false }
  else s1

/-- One iteration of the `capture_video` loop body (`lookout.py` lines
112–162), given the latest detection labels, the current time `now`, the
result `pushOk` of `camera.store_current()`, and the current global `state`.
Faithful ordering: detection gate and buzz cutoff (lines 122–135, `tickGate`),
then buffer-full exit (lines 142–144), idle-timeout exit (lines 146–147) and
shutdown exit (lines 149–150), in that order. -/
def captureTick (blacklist whitelist : List String) (idleTime buzzTime : Int)
    (s : TickState) (now : Int) (labels : List String) (pushOk : Bool)
    (st : State) : TickState × TickExit :=
  let s2 := tickGate blacklist whitelist buzzTime s now labels
  (s2,
    if !pushOk then TickExit.sleepBufferFull
    else if now - s2.idle_timer ≥ idleTime then TickExit.sleepIdle
    else if st = State.SHUTTING_DOWN then TickExit.shutdownExit
    else TickExit.continueLoop)

/-- The session-teardown block of the main loop (`lookout.py` lines 186–192),
run when `capture_video()` returns `True`: `state = INACTIVE`,
`camera.close()` (which marks the writer file for closing),
`gpio.set_buzzer_frequency(0)` and IR LEDs off.  Note: `buzzer_timer` is a
global and is NOT reset here. -/
def sessionExit (s : TickState) : TickState :=
  { s with buzzerOn := false }

/-- The main loop's handling of a `capture_video` exit (`lookout.py` lines
186–194): the buffer-full and idle exits make `capture_video` return `True`,
upon which the loop goes `INACTIVE` and closes the session (third component:
whether `camera.close()` — and hence `close_session` — was called); the
shutdown exit returns `False`, leaving the state machine in `SHUTTING_DOWN`. -/
def afterActiveExit (s : TickState) : TickExit → Option (State × TickState × Bool)
  | TickExit.continueLoop => none
  | TickExit.sleepBufferFull => some (State.INACTIVE, sessionExit s, true)
  | TickExit.sleepIdle => some (State.INACTIVE, sessionExit s, true)
  | TickExit.shutdownExit => some (State.SHUTTING_DOWN, s, false)

end Lookout

namespace GpioManager

/-- The two shutdown events of spec §4.3. -/
inductive ShutdownEvent
  | gracefulRequest
  | forceShutdown
deriving DecidableEq

/-- State of the edge event processor: the press timestamp, if a press has
been observed and not yet released. -/
structure EdgeProcessor where
  button_hold_timer : Option Int
deriving DecidableEq

/-- Modelled from the spec: the hold-duration button handler is missing from
`src/` — `gpio_manager.btn_pin_callback` (lines 163–168) forwards a
press/release flag `level == 1` to the registered handler, but the handler
revision present (`lookout.on_power_btn_pressed`, lines 87–96) takes no
argument and measures no duration.  Spec §4.3: on press record
`button_hold_timer = now`; on release compute `held = now - button_hold_timer`
and emit Force-Shutdown if `held > forced_shutdown_threshold`, else a
Graceful-Shutdown-Request; a release with no preceding press is treated as a
normal graceful request. -/
def onButtonEdge (threshold : Int) (p : EdgeProcessor) (release : Bool)
    (now : Int) : EdgeProcessor × Option ShutdownEvent :=
  if release then
    match p.button_hold_timer with
    | none => ({ button_hold_timer := none }, some ShutdownEvent.gracefulRequest)
    | some t0 =>
      ({ button_hold_timer := none },
        some (if now - t0 > threshold then ShutdownEvent.forceShutdown
              else ShutdownEvent.gracefulRequest))
  else ({ button_hold_timer := some now }, none)

end GpioManager

/-! ## Supporting lemmas -/

namespace CameraManager

variable {α : Type}

theorem add_emod_left_reduce (a b m : Int) : (a % m + b) % m = (a + b) % m := by
  conv_rhs => rw [Int.add_emod]
  rw [Int.add_emod (a % m) b, Int.emod_emod_of_dvd _ dvd_rfl]

theorem sub_emod_left_reduce (a b m : Int) : (a % m - b) % m = (a - b) % m := by
  conv_rhs => rw [Int.sub_emod]
  rw [Int.sub_emod (a % m) b, Int.emod_emod_of_dvd _ dvd_rfl]

theorem sub_emod_right_reduce (a b m : Int) : (a - b % m) % m = (a - b) % m := by
  conv_rhs => rw [Int.sub_emod]
  rw [Int.sub_emod a (b % m), Int.emod_emod_of_dvd _ dvd_rfl]

theorem neg_one_emod (m : Int) (h : 1 ≤ m) : (-1 : Int) % m = m - 1 := by
  have h2 : (-1 : Int) = (m - 1) + m * (-1) := by ring
  rw [h2, Int.add_mul_emod_self_left]
  exact Int.emod_eq_of_lt (by omega) (by omega)

theorem occupancy_nonneg (b : FrameBuffer α) : 0 ≤ b.occupancy :=
  Int.emod_nonneg _ (by positivity)

theorem occupancy_lt (b : FrameBuffer α) : b.occupancy < (b.max_size : Int) + 1 :=
  Int.emod_lt_of_pos _ (by positivity)

theorem occupancy_le (b : FrameBuffer α) : b.occupancy ≤ (b.max_size : Int) := by
  have h := occupancy_lt b
  omega

/-- `push` returns `false` (and the unchanged buffer) exactly when the
occupancy has reached `max_size`. -/
theorem push_false_iff (b : FrameBuffer α) (f : α) :
    (b.push f).1 = false ↔ b.occupancy = (b.max_size : Int) := by
  have hle := occupancy_le b
  unfold FrameBuffer.push
  by_cases h : b.occupancy ≥ (b.max_size : Int)
  · simp [h]
    omega
  · simp [h]
    omega

theorem push_full_unchanged (b : FrameBuffer α) (f : α)
    (h : b.occupancy = (b.max_size : Int)) : b.push f = (false, b) := by
  unfold FrameBuffer.push
  rw [if_pos (le_of_eq h.symm)]

/-- Under well-formedness, the buffer is empty exactly when the occupancy
is zero. -/
theorem is_empty_iff (b : FrameBuffer α) (hWF : b.WF) :
    b.is_empty = true ↔ b.occupancy = 0 := by
  obtain ⟨hw, hr⟩ := hWF
  unfold FrameBuffer.is_empty FrameBuffer.occupancy
  rw [Nat.beq_eq_true_eq]
  constructor
  · intro h
    rw [h, sub_self, Int.zero_emod]
  · intro h
    have hd : ((b.max_size : Int) + 1) ∣ ((b.write_index : Int) - b.read_index) :=
      Int.dvd_of_emod_eq_zero h
    obtain ⟨k, hk⟩ := hd
    have hk0 : k = 0 := by nlinarith [hk]
    rw [hk0, mul_zero] at hk
    omega

/-- Occupancy of a successful push grows by one. -/
theorem occupancy_push (b : FrameBuffer α) (f : α)
    (h : b.occupancy < (b.max_size : Int)) :
    (b.push f).2.occupancy = b.occupancy + 1 ∧ (b.push f).1 = true := by
  have hnn := occupancy_nonneg b
  unfold FrameBuffer.push
  rw [if_neg (by omega)]
  refine ⟨?_, rfl⟩
  show (((((b.write_index + 1) % (b.max_size + 1) : Nat)) : Int) - b.read_index)
      % ((b.max_size : Int) + 1) = b.occupancy + 1
  have hcast : (((b.write_index + 1) % (b.max_size + 1) : Nat) : Int)
      = ((b.write_index : Int) + 1) % ((b.max_size : Int) + 1) := by
    push_cast
    ring_nf
  rw [hcast, sub_emod_left_reduce]
  have harr : (b.write_index : Int) + 1 - b.read_index
      = ((b.write_index : Int) - b.read_index) + 1 := by ring
  rw [harr, ← add_emod_left_reduce]
  have hocc : ((b.write_index : Int) - (b.read_index : Int)) % ((b.max_size : Int) + 1)
      = b.occupancy := rfl
  rw [hocc]
  exact Int.emod_eq_of_lt (by omega) (by omega)

/-- Occupancy after any pop, as a shifted modulus. -/
theorem occupancy_pop [Zero α] (b : FrameBuffer α) :
    (b.pop).2.occupancy = (b.occupancy - 1) % ((b.max_size : Int) + 1) := by
  unfold FrameBuffer.pop
  show (((b.write_index : Int)) - (((b.read_index + 1) % (b.max_size + 1) : Nat) : Int))
      % ((b.max_size : Int) + 1) = _
  have hcast : (((b.read_index + 1) % (b.max_size + 1) : Nat) : Int)
      = ((b.read_index : Int) + 1) % ((b.max_size : Int) + 1) := by
    push_cast
    ring_nf
  rw [hcast, sub_emod_right_reduce]
  have harr : (b.write_index : Int) - ((b.read_index : Int) + 1)
      = ((b.write_index : Int) - b.read_index) - 1 := by ring
  rw [harr, ← sub_emod_left_reduce]
  rfl

/-- Popping an empty buffer wraps the occupancy round to `max_size`. -/
theorem occupancy_pop_empty [Zero α] (b : FrameBuffer α) (hWF : b.WF)
    (h : b.is_empty = true) : (b.pop).2.occupancy = (b.max_size : Int) := by
  rw [occupancy_pop, (is_empty_iff b hWF).mp h]
  show (-1 : Int) % ((b.max_size : Int) + 1) = _
  rw [neg_one_emod _ (by omega)]
  ring

/-- Popping a nonempty well-formed buffer shrinks the occupancy by one. -/
theorem occupancy_pop_nonempty [Zero α] (b : FrameBuffer α) (hWF : b.WF)
    (h : b.is_empty = false) : (b.pop).2.occupancy = b.occupancy - 1 := by
  have h1 : b.occupancy ≠ 0 := by
    intro h0
    rw [← Bool.not_eq_true] at h
    exact h ((is_empty_iff b hWF).mpr h0)
  have hnn := occupancy_nonneg b
  have hlt := occupancy_lt b
  rw [occupancy_pop]
  exact Int.emod_eq_of_lt (by omega) (by omega)

end CameraManager

namespace CameraManager

variable {α : Type}

/-- If the slot `(read_index + j) % (max_size + 1)` is the write slot, then
`j` is exactly the occupancy. -/
theorem slot_eq_write (b : FrameBuffer α) (j : Nat) (hj : j ≤ b.max_size)
    (h : (b.read_index + j) % (b.max_size + 1) = b.write_index) :
    (j : Int) = b.occupancy := by
  have hcast : (b.write_index : Int)
      = ((b.read_index : Int) + j) % ((b.max_size : Int) + 1) := by
    rw [← h]
    push_cast
    ring_nf
  unfold FrameBuffer.occupancy
  rw [hcast, sub_emod_left_reduce]
  have harr : (b.read_index : Int) + j - b.read_index = (j : Int) := by ring
  rw [harr]
  rw [Int.emod_eq_of_lt (by positivity) (by exact_mod_cast by omega)]

theorem WF_init [Zero α] (N : Nat) : (FrameBuffer.init (α := α) N).WF :=
  ⟨Nat.succ_pos N, Nat.succ_pos N⟩

theorem WF_push (b : FrameBuffer α) (f : α) (hWF : b.WF) : (b.push f).2.WF := by
  unfold FrameBuffer.push
  split
  · exact hWF
  · exact ⟨Nat.mod_lt _ (Nat.succ_pos _), hWF.2⟩

theorem WF_pop [Zero α] (b : FrameBuffer α) (hWF : b.WF) : (b.pop).2.WF :=
  ⟨hWF.1, Nat.mod_lt _ (Nat.succ_pos _)⟩

theorem ZO_init [Zero α] (N : Nat) : (FrameBuffer.init (α := α) N).ZeroOutside :=
  fun _ _ _ => rfl

theorem ZO_push [Zero α] (b : FrameBuffer α) (f : α) (hWF : b.WF)
    (hZO : b.ZeroOutside) : (b.push f).2.ZeroOutside := by
  by_cases h : b.occupancy ≥ (b.max_size : Int)
  · have hfull : b.push f = (false, b) :=
      push_full_unchanged b f (le_antisymm (occupancy_le b) h)
    rw [hfull]
    exact hZO
  · push_neg at h
    obtain ⟨hop, -⟩ := occupancy_push b f h
    have ha : (b.push f).2.array = setSlot b.array b.write_index f := by
      unfold FrameBuffer.push
      rw [if_neg (by omega)]
    have hr : (b.push f).2.read_index = b.read_index := by
      unfold FrameBuffer.push
      rw [if_neg (by omega)]
    have hm : (b.push f).2.max_size = b.max_size := by
      unfold FrameBuffer.push
      rw [if_neg (by omega)]
    intro j hj1 hj2
    rw [ha, hr, hm]
    rw [hm] at hj2
    have hocc : (b.push f).2.occNat = b.occNat + 1 := by
      unfold FrameBuffer.occNat
      rw [hop]
      have := occupancy_nonneg b
      omega
    rw [hocc] at hj1
    unfold setSlot
    rw [if_neg ?slotne]
    · exact hZO j (by omega) hj2
    case slotne =>
      intro heq
      have hjo := slot_eq_write b j hj2 heq
      have hnn := occupancy_nonneg b
      unfold FrameBuffer.occNat at hj1
      omega

theorem ZO_pop [Zero α] (b : FrameBuffer α) (hWF : b.WF)
    (hZO : b.ZeroOutside) : (b.pop).2.ZeroOutside := by
  have ha : (b.pop).2.array = setSlot b.array b.read_index 0 := rfl
  have hr : (b.pop).2.read_index = (b.read_index + 1) % (b.max_size + 1) := rfl
  have hm : (b.pop).2.max_size = b.max_size := rfl
  intro j hj1 hj2
  rw [ha, hr, hm]
  rw [hm] at hj2
  rw [Nat.mod_add_mod]
  by_cases hj3 : j = b.max_size
  · -- the last slot of the window is the slot just cleared by this pop
    have hidx : (b.read_index + 1 + j) % (b.max_size + 1) = b.read_index := by
      rw [hj3]
      have : b.read_index + 1 + b.max_size = b.read_index + (b.max_size + 1) := by omega
      rw [this, Nat.add_mod_right]
      exact Nat.mod_eq_of_lt hWF.2
    rw [hidx]
    unfold setSlot
    rw [if_pos rfl]
  · have hbound : b.occNat ≤ j + 1 := by
      cases hemp : b.is_empty with
      | false =>
        have hpe := occupancy_pop_nonempty b hWF hemp
        unfold FrameBuffer.occNat at hj1 ⊢
        rw [hpe] at hj1
        have h0 := occupancy_nonneg b
        omega
      | true =>
        have h0 : b.occupancy = 0 := (is_empty_iff b hWF).mp hemp
        unfold FrameBuffer.occNat
        rw [h0]
        simp
    have harr : b.read_index + 1 + j = b.read_index + (j + 1) := by omega
    rw [harr]
    by_cases hslot : (b.read_index + (j + 1)) % (b.max_size + 1) = b.read_index
    · rw [hslot]
      unfold setSlot
      rw [if_pos rfl]
    · unfold setSlot
      rw [if_neg hslot]
      exact hZO (j + 1) hbound (by omega)

/-- All reachable buffer states are well-formed and keep every slot outside
the occupied window zeroed. -/
theorem reachable_inv [Zero α] (b : FrameBuffer α) (h : b.Reachable) :
    b.WF ∧ b.ZeroOutside := by
  induction h with
  | init N => exact ⟨WF_init N, ZO_init N⟩
  | push b f hb ih => exact ⟨WF_push b f ih.1, ZO_push b f ih.1 ih.2⟩
  | pop b hb ih => exact ⟨WF_pop b ih.1, ZO_pop b ih.1 ih.2⟩

end CameraManager

namespace CameraManager

variable {α : Type}

/-- One push into a buffer whose reader is still at 0 and whose writer has
room: succeeds and advances the writer by one. -/
theorem push_step (b : FrameBuffer α) (f : α) (hr : b.read_index = 0)
    (hw : b.write_index < b.max_size) :
    (b.push f).1 = true ∧ (b.push f).2.write_index = b.write_index + 1 ∧
      (b.push f).2.read_index = 0 ∧ (b.push f).2.max_size = b.max_size := by
  have hocc : b.occupancy = (b.write_index : Int) := by
    unfold FrameBuffer.occupancy
    rw [hr]
    push_cast
    rw [sub_zero]
    exact Int.emod_eq_of_lt (by positivity) (by exact_mod_cast by omega)
  have hiff : ¬ b.occupancy ≥ (b.max_size : Int) := by
    rw [hocc]
    exact_mod_cast by omega
  unfold FrameBuffer.push
  rw [if_neg hiff]
  refine ⟨rfl, ?_, hr, rfl⟩
  show (b.write_index + 1) % (b.max_size + 1) = b.write_index + 1
  exact Nat.mod_eq_of_lt (by omega)

/-- Filling a buffer whose reader is at 0: as long as the frames fit, every
push succeeds and the writer advances by the number of frames. -/
theorem pushAll_fill (fs : List α) : ∀ (b : FrameBuffer α), b.read_index = 0 →
    b.write_index + fs.length ≤ b.max_size →
    (b.pushAll fs).1 = true ∧
      (b.pushAll fs).2.write_index = b.write_index + fs.length ∧
      (b.pushAll fs).2.read_index = 0 ∧
      (b.pushAll fs).2.max_size = b.max_size := by
  induction fs with
  | nil =>
    intro b hr _
    exact ⟨rfl, by simp [FrameBuffer.pushAll], hr, rfl⟩
  | cons f fs ih =>
    intro b hr hfit
    simp only [List.length_cons] at hfit
    obtain ⟨h1, h2, h3, h4⟩ := push_step b f hr (by omega)
    obtain ⟨g1, g2, g3, g4⟩ := ih (b.push f).2 h3 (by omega)
    refine ⟨?_, ?_, ?_, ?_⟩
    · show ((b.push f).1 && ((b.push f).2.pushAll fs).1) = true
      rw [h1, g1]
      rfl
    · show ((b.push f).2.pushAll fs).2.write_index = b.write_index + (fs.length + 1)
      rw [g2, h2]
      omega
    · exact g3
    · show ((b.push f).2.pushAll fs).2.max_size = b.max_size
      rw [g4, h4]

/-- Iterated pops only step the reader round the ring. -/
theorem popN_state [Zero α] (k : Nat) : ∀ (b : FrameBuffer α),
    (FrameBuffer.popN k b).read_index = (b.read_index + k) % (b.max_size + 1) ∨ k = 0 := by
  induction k with
  | zero => intro b; exact Or.inr rfl
  | succ k ih =>
    intro b
    left
    show (FrameBuffer.popN k (b.pop).2).read_index = _
    rcases ih (b.pop).2 with h | h
    · rw [h]
      show ((b.read_index + 1) % (b.max_size + 1) + k) % (b.max_size + 1) = _
      rw [Nat.mod_add_mod]
      congr 1
      omega
    · rw [h]
      show (FrameBuffer.popN 0 (b.pop).2).read_index = _
      show (b.read_index + 1) % (b.max_size + 1) = _
      rfl

theorem popN_frozen [Zero α] (k : Nat) : ∀ (b : FrameBuffer α),
    (FrameBuffer.popN k b).write_index = b.write_index ∧
      (FrameBuffer.popN k b).max_size = b.max_size := by
  induction k with
  | zero => intro b; exact ⟨rfl, rfl⟩
  | succ k ih =>
    intro b
    exact ih (b.pop).2

end CameraManager

/-! ## Claim theorems: ring buffer -/

namespace CameraManager

variable {α : Type}

/-- **C1**: for every capacity `N ≥ 1`, starting from a fresh `FrameBuffer`:
`N` pushes all succeed; the next push returns `false` and leaves the buffer
(contents and `write_index`) unchanged; after one `pop` the next push
succeeds; and for every well-formed buffer state the occupancy
`(write_index - read_index) % (N + 1)` lies in `[0, N]`, equalling
`max_size` exactly when `push` reports full and `0` exactly when the buffer
is empty. -/
theorem C1_ring_buffer_capacity [Zero α] (N : Nat) (hN : 1 ≤ N)
    (fs : List α) (hlen : fs.length = N) (f g : α) :
    ((FrameBuffer.init (α := α) N).pushAll fs).1 = true ∧
    ((((FrameBuffer.init (α := α) N).pushAll fs).2).push f).1 = false ∧
    ((((FrameBuffer.init (α := α) N).pushAll fs).2).push f).2
      = ((FrameBuffer.init (α := α) N).pushAll fs).2 ∧
    (((((FrameBuffer.init (α := α) N).pushAll fs).2).pop.2).push g).1 = true ∧
    (∀ b : FrameBuffer α, b.WF →
      (0 ≤ b.occupancy ∧ b.occupancy ≤ (b.max_size : Int)) ∧
      ((b.push f).1 = false ↔ b.occupancy = (b.max_size : Int)) ∧
      (b.is_empty = true ↔ b.occupancy = 0)) := by
  have hiw : (FrameBuffer.init (α := α) N).write_index = 0 := rfl
  have him : (FrameBuffer.init (α := α) N).max_size = N := rfl
  obtain ⟨h1, h2, h3, h4⟩ := pushAll_fill fs (FrameBuffer.init (α := α) N) rfl
    (by rw [hiw, him, hlen]; omega)
  set b1 := ((FrameBuffer.init (α := α) N).pushAll fs).2 with hb1
  have hw : b1.write_index = N := by rw [h2, hiw, hlen]; omega
  have hr : b1.read_index = 0 := h3
  have hm : b1.max_size = N := by rw [h4, him]
  have hWF1 : b1.WF := by
    constructor
    · rw [hw, hm]; omega
    · rw [hr, hm]; omega
  have hocc1 : b1.occupancy = (N : Int) := by
    unfold FrameBuffer.occupancy
    rw [hw, hr, hm]
    push_cast
    rw [sub_zero]
    exact Int.emod_eq_of_lt (by positivity) (by omega)
  have hfull := push_full_unchanged b1 f (by rw [hocc1, hm])
  refine ⟨h1, by rw [hfull], by rw [hfull], ?_, ?_⟩
  · -- after one pop, the next push succeeds
    have hne : b1.is_empty = false := by
      unfold FrameBuffer.is_empty
      rw [hw, hr]
      simp
      omega
    have hocc2 : (b1.pop).2.occupancy = (N : Int) - 1 := by
      rw [occupancy_pop_nonempty b1 hWF1 hne, hocc1]
    have hmp : (b1.pop).2.max_size = b1.max_size := rfl
    unfold FrameBuffer.push
    rw [if_neg ?notfull]
    case notfull =>
      rw [hocc2, hmp, hm]
      omega
  · intro b hWF
    exact ⟨⟨occupancy_nonneg b, occupancy_le b⟩, push_false_iff b f, is_empty_iff b hWF⟩

/-- Witness for C1: capacity 2 with frames `[5, 6]`; both pushes succeed and
the third push reports a full buffer. -/
theorem C1_ring_buffer_capacity_witness :
    1 ≤ 2 ∧ ([5, 6] : List Nat).length = 2 ∧
      ((FrameBuffer.init (α := Nat) 2).pushAll [5, 6]).1 = true ∧
      ((((FrameBuffer.init (α := Nat) 2).pushAll [5, 6]).2).push 7).1 = false :=
  ⟨by decide, rfl,
    (C1_ring_buffer_capacity 2 (by decide) [5, 6] rfl 7 8).1,
    (C1_ring_buffer_capacity 2 (by decide) [5, 6] rfl 7 8).2.1⟩

/-- **C9**: on every reachable buffer state, every slot outside the occupied
window is zero, the single array index `pop` accesses (`read_index`) is
within bounds `[0, max_size]`, and `pop` on an empty buffer returns the
all-zero frame. -/
theorem C9_pop_empty_safe [Zero α] (b : FrameBuffer α) (hreach : b.Reachable) :
    b.ZeroOutside ∧ b.read_index ≤ b.max_size ∧
      (b.is_empty = true → (b.pop).1 = (0 : α)) := by
  obtain ⟨hWF, hZO⟩ := reachable_inv b hreach
  refine ⟨hZO, by have := hWF.2; omega, ?_⟩
  intro hemp
  have h0 : b.occNat = 0 := by
    unfold FrameBuffer.occNat
    rw [(is_empty_iff b hWF).mp hemp]
    rfl
  have hz := hZO 0 (by omega) (Nat.zero_le _)
  rw [Nat.add_zero, Nat.mod_eq_of_lt hWF.2] at hz
  exact hz

/-- Witness for C9: the freshly constructed capacity-3 buffer is reachable
and empty, and popping it yields the zero frame. -/
theorem C9_pop_empty_safe_witness :
    FrameBuffer.Reachable (FrameBuffer.init (α := Nat) 3) ∧
      (FrameBuffer.init (α := Nat) 3).is_empty = true ∧
      ((FrameBuffer.init (α := Nat) 3).pop).1 = 0 ∧
      (FrameBuffer.init (α := Nat) 3).read_index ≤ 3 :=
  ⟨FrameBuffer.Reachable.init 3, rfl,
    (C9_pop_empty_safe _ (FrameBuffer.Reachable.init 3)).2.2 rfl,
    (C9_pop_empty_safe _ (FrameBuffer.Reachable.init 3)).2.1⟩

/-- **C10**: popping an empty well-formed buffer (capacity ≥ 1) still
advances `read_index`, after which the occupancy is `max_size`, `is_empty`
answers `false`, `push` fails as if the buffer were full, and only
`max_size` further pops make it empty again. -/
theorem C10_pop_empty_looks_full [Zero α] (b : FrameBuffer α) (hWF : b.WF)
    (hN : 1 ≤ b.max_size) (hemp : b.is_empty = true) (f : α) :
    (b.pop).2.read_index = (b.read_index + 1) % (b.max_size + 1) ∧
    (b.pop).2.read_index ≠ b.read_index ∧
    (b.pop).2.occupancy = (b.max_size : Int) ∧
    (b.pop).2.is_empty = false ∧
    ((b.pop).2.push f).1 = false ∧
    (FrameBuffer.popN b.max_size (b.pop).2).is_empty = true := by
  have hwr : b.write_index = b.read_index := by
    unfold FrameBuffer.is_empty at hemp
    rwa [Nat.beq_eq_true_eq] at hemp
  have hadv : (b.read_index + 1) % (b.max_size + 1) ≠ b.read_index := by
    rcases Nat.lt_or_ge (b.read_index + 1) (b.max_size + 1) with h | h
    · rw [Nat.mod_eq_of_lt h]
      omega
    · have hre : b.read_index + 1 = b.max_size + 1 := by
        have := hWF.2
        omega
      rw [hre, Nat.mod_self]
      omega
  have hocc := occupancy_pop_empty b hWF hemp
  have hwp : (b.pop).2.write_index = b.write_index := rfl
  have hrp : (b.pop).2.read_index = (b.read_index + 1) % (b.max_size + 1) := rfl
  have hmp : (b.pop).2.max_size = b.max_size := rfl
  refine ⟨rfl, by rw [hrp]; exact hadv, hocc, ?_, ?_, ?_⟩
  · unfold FrameBuffer.is_empty
    rw [beq_eq_false_iff_ne, hwp, hrp, hwr]
    exact fun hcc => hadv hcc.symm
  · exact (push_false_iff (b.pop).2 f).mpr (by rw [hocc, hmp])
  · rcases popN_state b.max_size (b.pop).2 with h | h
    · unfold FrameBuffer.is_empty
      rw [Nat.beq_eq_true_eq, (popN_frozen b.max_size (b.pop).2).1, h, hwp, hrp, hmp,
        Nat.mod_add_mod, hwr]
      have hre : b.read_index + 1 + b.max_size = b.read_index + (b.max_size + 1) := by
        omega
      rw [hre, Nat.add_mod_right]
      exact (Nat.mod_eq_of_lt hWF.2).symm
    · omega

/-- Witness for C10: popping the fresh empty capacity-2 buffer makes
`is_empty` answer `false` and `push` fail; two further pops empty it. -/
theorem C10_pop_empty_looks_full_witness :
    (FrameBuffer.init (α := Nat) 2).is_empty = true ∧
      ((FrameBuffer.init (α := Nat) 2).pop).2.is_empty = false ∧
      (((FrameBuffer.init (α := Nat) 2).pop).2.push 9).1 = false ∧
      (FrameBuffer.popN 2 ((FrameBuffer.init (α := Nat) 2).pop).2).is_empty = true :=
  ⟨rfl,
    (C10_pop_empty_looks_full _ (WF_init 2) (by decide) rfl 9).2.2.2.1,
    (C10_pop_empty_looks_full _ (WF_init 2) (by decide) rfl 9).2.2.2.2.1,
    (C10_pop_empty_looks_full _ (WF_init 2) (by decide) rfl 9).2.2.2.2.2⟩

end CameraManager

/-! ## Supporting lemmas: capture-tick logic -/

namespace Lookout

/-- On an empty label list the arming condition is off. -/
theorem armCondition_nil (block allow : List String) :
    armCondition block allow [] = false := by
  simp [armCondition]

/-- Starting from a disarmed state (`buzzer_timer = 0`, output off), the gate
turns the buzzer output on exactly when the line-127 condition holds. -/
theorem tickGate_buzzerOn_disarmed (block allow labels : List String)
    (it now : Int) :
    (tickGate block allow BUZZ_TIME ⟨it, 0, false⟩ now labels).buzzerOn
      = armCondition block allow labels := by
  by_cases hlen : labels.length > 0
  · by_cases harm : armCondition block allow labels = true
    · simp [tickGate, hlen, harm, BUZZ_TIME]
    · rw [Bool.not_eq_true] at harm
      simp [tickGate, hlen, harm]
  · have hnil : labels = [] := by
      cases labels with
      | nil => rfl
      | cons l ls => simp at hlen
    subst hnil
    simp [tickGate, armCondition_nil]

/-- In any tick that detected at least one object, the gate leaves the idle
timer refreshed to `now` (the buzz-cutoff branch does not touch it). -/
theorem tickGate_idle_nonempty (block allow : List String) (bt : Int)
    (s : TickState) (now : Int) (labels : List String) (h : labels ≠ []) :
    (tickGate block allow bt s now labels).idle_timer = now := by
  have hlen : labels.length > 0 := by
    cases labels with
    | nil => exact absurd rfl h
    | cons l ls => simp
  by_cases harm : armCondition block allow labels = true
  · simp only [tickGate, if_pos hlen, harm, if_true]
    split <;> rfl
  · rw [Bool.not_eq_true] at harm
    simp only [tickGate, if_pos hlen, harm, if_false, Bool.false_eq_true]
    split <;> rfl

/-- In a tick with no detections the gate leaves the idle timer alone. -/
theorem tickGate_idle_empty (block allow : List String) (bt : Int)
    (s : TickState) (now : Int) :
    (tickGate block allow bt s now []).idle_timer = s.idle_timer := by
  simp only [tickGate, List.length_nil, gt_iff_lt, Nat.lt_irrefl, if_false]
  split <;> rfl

/-- The state returned by a capture tick is the gate state, whichever way
the tick exits. -/
theorem captureTick_fst (block allow : List String) (idleTime bt : Int)
    (s : TickState) (now : Int) (labels : List String) (pushOk : Bool)
    (st : State) :
    (captureTick block allow idleTime bt s now labels pushOk st).1
      = tickGate block allow bt s now labels := rfl

/-- How a capture tick exits, as a function of the gate state. -/
theorem captureTick_snd (block allow : List String) (idleTime bt : Int)
    (s : TickState) (now : Int) (labels : List String) (pushOk : Bool)
    (st : State) :
    (captureTick block allow idleTime bt s now labels pushOk st).2
      = if !pushOk then TickExit.sleepBufferFull
        else if now - (tickGate block allow bt s now labels).idle_timer ≥ idleTime then
          TickExit.sleepIdle
        else if st = State.SHUTTING_DOWN then TickExit.shutdownExit
        else TickExit.continueLoop := rfl

end Lookout

/-! ## Claim theorems: control loop, state machine, edge events -/

/-- **C2** (edge processor modelled from spec §4.3; the hold-measuring
handler revision is absent from `src/`): a press records the press time; the
matching release measures the held duration and emits Force-Shutdown exactly
when it exceeds the threshold, Graceful-Shutdown-Request otherwise; with
threshold 5, a 2-second hold is graceful and a 6-second hold is forced. -/
theorem C2_button_hold_duration (threshold t held : Int) :
    ((GpioManager.onButtonEdge threshold ⟨none⟩ false t).1.button_hold_timer
        = some t) ∧
    ((GpioManager.onButtonEdge threshold
        (GpioManager.onButtonEdge threshold ⟨none⟩ false t).1 true (t + held)).2
      = some (if held > threshold then GpioManager.ShutdownEvent.forceShutdown
              else GpioManager.ShutdownEvent.gracefulRequest)) ∧
    ((GpioManager.onButtonEdge 5
        (GpioManager.onButtonEdge 5 ⟨none⟩ false 0).1 true 2).2
      = some GpioManager.ShutdownEvent.gracefulRequest) ∧
    ((GpioManager.onButtonEdge 5
        (GpioManager.onButtonEdge 5 ⟨none⟩ false 0).1 true 6).2
      = some GpioManager.ShutdownEvent.forceShutdown) := by
  refine ⟨rfl, ?_, by decide, by decide⟩
  simp [GpioManager.onButtonEdge]

/-- **C3** (code bug): `on_pir_activated` sets the state to `ACTIVE`
unconditionally, so a Motion event delivered while the machine is
`SHUTTING_DOWN` (the PIR callback stays registered until
`gpio.prepare_shutdown()` runs, after the main loop has exited) drags the
state machine back to `ACTIVE` — `SHUTTING_DOWN` is not terminal, contrary
to the claim and to the source's own comment (lookout.py lines 52–54) that
callbacks must exit early once the state is shutting down. -/
theorem C3_motion_escapes_shutting_down :
    Lookout.on_pir_activated Lookout.State.SHUTTING_DOWN = Lookout.State.ACTIVE ∧
      Lookout.State.ACTIVE ≠ Lookout.State.SHUTTING_DOWN := by
  exact ⟨rfl, by decide⟩

/-- **C4 counterexample**: the control loop consults no config enable flag
(`settings.ENABLE_BUZZER` is never read by `lookout.py`), so with the alarm
output disabled by config the claimed biconditional fails: a tick seeing
`{"cat"}` arms the buzzer even though the claim's predicate (with
`enable = false`) says it must not. -/
theorem C4_enable_flag_not_consulted :
    (Lookout.captureTick Lookout.OBJECT_BLACKLIST Lookout.OBJECT_WHITELIST
        Lookout.IDLE_TIME Lookout.BUZZ_TIME ⟨1, 0, false⟩ 1 ["cat"] true
        Lookout.State.ACTIVE).1.buzzerOn = true ∧
    Lookout.claimArmCondition false Lookout.OBJECT_BLACKLIST
        Lookout.OBJECT_WHITELIST ["cat"] = false := by
  exact ⟨by decide, by decide⟩

/-- **C4 (amended)**: the alarm arms in a tick (from a disarmed state) if
and only if at least one detected label is block-listed and none is
allow-listed — the code's gate equals the claim's predicate with the config
enable taken as identically `true` (no enable flag is consulted); the
presence of an allow-listed label always suppresses arming, and with block
list `["cat","person"]` and allow list `["scissors"]` the set
`{"cat","scissors"}` does not arm while `{"cat"}` does. -/
theorem C4_alarm_gate (block allow labels : List String) (it now idleTime : Int)
    (pushOk : Bool) (st : Lookout.State) :
    (Lookout.captureTick block allow idleTime Lookout.BUZZ_TIME
        ⟨it, 0, false⟩ now labels pushOk st).1.buzzerOn
      = Lookout.armCondition block allow labels ∧
    Lookout.armCondition block allow labels
      = Lookout.claimArmCondition true block allow labels ∧
    Lookout.armCondition ["cat", "person"] ["scissors"] ["cat", "scissors"] = false ∧
    Lookout.armCondition ["cat", "person"] ["scissors"] ["cat"] = true := by
  refine ⟨?_, ?_, by decide, by decide⟩
  · rw [Lookout.captureTick_fst]
    exact Lookout.tickGate_buzzerOn_disarmed block allow labels it now
  · simp [Lookout.armCondition, Lookout.claimArmCondition]

/-- **C6** (code bug): when a session ends while the alarm is armed, the
main loop turns the buzzer output off (`gpio.set_buzzer_frequency(0)`,
lookout.py line 191) but leaves the global `buzzer_timer` nonzero; on the
next session's first arming tick the guard `if buzzer_timer == 0` (line 129)
therefore skips `gpio.set_buzzer_frequency(BUZZER_FREQUENCY)`, so the
output-disarmed → armed transition happens with the alarm output still off
(and the per-tick `buzzer_timer = now` refresh keeps the stale timer from
ever expiring while the intruder stays in view). -/
theorem C6_stale_timer_mutes_new_session :
    ((Lookout.captureTick Lookout.OBJECT_BLACKLIST Lookout.OBJECT_WHITELIST
        Lookout.IDLE_TIME Lookout.BUZZ_TIME ⟨1, 0, false⟩ 1 ["cat"] true
        Lookout.State.ACTIVE).1.buzzerOn = true) ∧
    ((Lookout.captureTick Lookout.OBJECT_BLACKLIST Lookout.OBJECT_WHITELIST
        Lookout.IDLE_TIME Lookout.BUZZ_TIME ⟨1, 0, false⟩ 1 ["cat"] true
        Lookout.State.ACTIVE).1.buzzer_timer = 1) ∧
    ((Lookout.sessionExit
        (Lookout.captureTick Lookout.OBJECT_BLACKLIST Lookout.OBJECT_WHITELIST
          Lookout.IDLE_TIME Lookout.BUZZ_TIME ⟨1, 0, false⟩ 1 ["cat"] true
          Lookout.State.ACTIVE).1).buzzerOn = false) ∧
    ((Lookout.captureTick Lookout.OBJECT_BLACKLIST Lookout.OBJECT_WHITELIST
        Lookout.IDLE_TIME Lookout.BUZZ_TIME
        (Lookout.sessionExit
          (Lookout.captureTick Lookout.OBJECT_BLACKLIST Lookout.OBJECT_WHITELIST
            Lookout.IDLE_TIME Lookout.BUZZ_TIME ⟨1, 0, false⟩ 1 ["cat"] true
            Lookout.State.ACTIVE).1) 5 ["cat"] true
        Lookout.State.ACTIVE).1.buzzerOn = false) ∧
    ((Lookout.captureTick Lookout.OBJECT_BLACKLIST Lookout.OBJECT_WHITELIST
        Lookout.IDLE_TIME Lookout.BUZZ_TIME
        (Lookout.sessionExit
          (Lookout.captureTick Lookout.OBJECT_BLACKLIST Lookout.OBJECT_WHITELIST
            Lookout.IDLE_TIME Lookout.BUZZ_TIME ⟨1, 0, false⟩ 1 ["cat"] true
            Lookout.State.ACTIVE).1) 5 ["cat"] true
        Lookout.State.ACTIVE).1.buzzer_timer = 5) ∧
    Lookout.armCondition Lookout.OBJECT_BLACKLIST Lookout.OBJECT_WHITELIST
        ["cat"] = true := by
  exact ⟨by decide, by decide, by decide, by decide, by decide, by decide⟩

/-- **C7**: with the code's `IDLE_TIME = 30`, a tick that detected objects
refreshes the idle timer (to `now`) before the idle-timeout test runs, so
such a tick can never exit through the idle timeout; a tick with no
detections leaves the idle timer alone, and once 30 time units have passed
since the last refresh (and the push succeeded, that test coming first) the
tick exits through the idle timeout, upon which the main loop transitions to
`INACTIVE` and closes the capture session. -/
theorem C7_idle_timeout (s : Lookout.TickState) (now : Int)
    (labels : List String) (pushOk : Bool) (st : Lookout.State) :
    Lookout.IDLE_TIME = 30 ∧
    (labels ≠ [] →
      (Lookout.captureTick Lookout.OBJECT_BLACKLIST Lookout.OBJECT_WHITELIST
        Lookout.IDLE_TIME Lookout.BUZZ_TIME s now labels pushOk st).2
        ≠ Lookout.TickExit.sleepIdle) ∧
    (labels = [] →
      (Lookout.captureTick Lookout.OBJECT_BLACKLIST Lookout.OBJECT_WHITELIST
        Lookout.IDLE_TIME Lookout.BUZZ_TIME s now labels pushOk st).1.idle_timer
        = s.idle_timer) ∧
    (labels = [] → pushOk = true → now - s.idle_timer ≥ 30 →
      (Lookout.captureTick Lookout.OBJECT_BLACKLIST Lookout.OBJECT_WHITELIST
          Lookout.IDLE_TIME Lookout.BUZZ_TIME s now labels pushOk st).2
        = Lookout.TickExit.sleepIdle ∧
      Lookout.afterActiveExit
          (Lookout.captureTick Lookout.OBJECT_BLACKLIST Lookout.OBJECT_WHITELIST
            Lookout.IDLE_TIME Lookout.BUZZ_TIME s now labels pushOk st).1
          (Lookout.captureTick Lookout.OBJECT_BLACKLIST Lookout.OBJECT_WHITELIST
            Lookout.IDLE_TIME Lookout.BUZZ_TIME s now labels pushOk st).2
        = some (Lookout.State.INACTIVE,
            Lookout.sessionExit
              (Lookout.captureTick Lookout.OBJECT_BLACKLIST Lookout.OBJECT_WHITELIST
                Lookout.IDLE_TIME Lookout.BUZZ_TIME s now labels pushOk st).1,
            true)) := by
  refine ⟨rfl, ?_, ?_, ?_⟩
  · intro hne
    rw [Lookout.captureTick_snd]
    rw [Lookout.tickGate_idle_nonempty _ _ _ _ _ _ hne]
    cases pushOk with
    | false => simp
    | true =>
      have hidle : ¬ (now - now ≥ Lookout.IDLE_TIME) := by
        rw [Lookout.IDLE_TIME]
        omega
      rw [if_neg (by simp), if_neg hidle]
      split
      · decide
      · decide
  · intro hnil
    subst hnil
    rw [Lookout.captureTick_fst]
    exact Lookout.tickGate_idle_empty _ _ _ _ _
  · intro hnil hp hidle
    subst hnil
    rw [hp]
    have hexit : (Lookout.captureTick Lookout.OBJECT_BLACKLIST
        Lookout.OBJECT_WHITELIST Lookout.IDLE_TIME Lookout.BUZZ_TIME s now []
        true st).2 = Lookout.TickExit.sleepIdle := by
      rw [Lookout.captureTick_snd, Lookout.tickGate_idle_empty]
      rw [if_neg (by simp), if_pos (by rw [Lookout.IDLE_TIME]; omega)]
    refine ⟨hexit, ?_⟩
    rw [hexit]
    rfl

/-- Witness for C7: a detection tick at `now = 31` with the idle threshold
long since crossed does not exit through the idle timeout, while an empty
tick at `now = 30` does. -/
theorem C7_idle_timeout_witness :
    ((["person"] : List String) ≠ []) ∧
    ((Lookout.captureTick Lookout.OBJECT_BLACKLIST Lookout.OBJECT_WHITELIST
        Lookout.IDLE_TIME Lookout.BUZZ_TIME ⟨0, 0, false⟩ 31 ["person"] true
        Lookout.State.ACTIVE).2 ≠ Lookout.TickExit.sleepIdle) ∧
    ((Lookout.captureTick Lookout.OBJECT_BLACKLIST Lookout.OBJECT_WHITELIST
        Lookout.IDLE_TIME Lookout.BUZZ_TIME ⟨0, 0, false⟩ 30 [] true
        Lookout.State.ACTIVE).2 = Lookout.TickExit.sleepIdle) :=
  ⟨by decide,
    (C7_idle_timeout ⟨0, 0, false⟩ 31 ["person"] true Lookout.State.ACTIVE).2.1
      (by decide),
    ((C7_idle_timeout ⟨0, 0, false⟩ 30 [] true Lookout.State.ACTIVE).2.2.2
      rfl rfl (by decide)).1⟩

/-- **C5** (code bug): `CaptureWriter.run` tests `shutdown_flag` at the top
of its outer loop, before draining or processing a pending close.
`camera_manager.shutdown()` calls `close()` (setting `close_flag`) and then
`writer.shutdown()` (setting `shutdown_flag`) within milliseconds, while the
write thread sleeps 0.2 s between iterations — so at the thread's next wake
both flags are set and it exits at once: with one frame still buffered and a
close pending, nothing is ever handed to `write`, the buffer stays nonempty
and the file handle is never released, contradicting both the claim and
`shutdown()`'s own docstring ("wait until the current capture has finished
being written").  The final three conjuncts show the contrast: with only the
close requested, the same state drains its frame exactly once in FIFO order,
empties the buffer and only then releases the handle. -/
theorem C5_shutdown_flag_abandons_pending_close :
    (CameraManager.runFuel 5
        (CameraManager.requestShutdown (CameraManager.close_file
          ⟨((CameraManager.FrameBuffer.init (α := Nat) 2).push 7).2,
            true, false, false, []⟩))
      = CameraManager.requestShutdown (CameraManager.close_file
          ⟨((CameraManager.FrameBuffer.init (α := Nat) 2).push 7).2,
            true, false, false, []⟩)) ∧
    (((CameraManager.FrameBuffer.init (α := Nat) 2).push 7).1 = true) ∧
    (((CameraManager.FrameBuffer.init (α := Nat) 2).push 7).2.is_empty = false) ∧
    ((CameraManager.runFuel 5
        (CameraManager.requestShutdown (CameraManager.close_file
          ⟨((CameraManager.FrameBuffer.init (α := Nat) 2).push 7).2,
            true, false, false, []⟩))).written = ([] : List Nat)) ∧
    ((CameraManager.runFuel 5
        (CameraManager.requestShutdown (CameraManager.close_file
          ⟨((CameraManager.FrameBuffer.init (α := Nat) 2).push 7).2,
            true, false, false, []⟩))).writerOpen = true) ∧
    ((CameraManager.runFuel 5 (CameraManager.close_file
        ⟨((CameraManager.FrameBuffer.init (α := Nat) 2).push 7).2,
          true, false, false, []⟩)).written = [7]) ∧
    ((CameraManager.runFuel 5 (CameraManager.close_file
        ⟨((CameraManager.FrameBuffer.init (α := Nat) 2).push 7).2,
          true, false, false, []⟩)).writerOpen = false) ∧
    ((CameraManager.runFuel 5 (CameraManager.close_file
        ⟨((CameraManager.FrameBuffer.init (α := Nat) 2).push 7).2,
          true, false, false, []⟩)).buf.is_empty = true) := by
  exact ⟨rfl, by decide, by decide, by decide, by decide, by decide, by decide,
    by decide⟩

/-- **C8** (code bug): `capture_frame` assigns `stream.read()`'s result to
`raw_frame` before checking `success` and immediately rotates it; on a
failed read (`(False, None)`) `cv2.rotate` raises before the warning is ever
logged, and in no case is the previous frame retained — the second conjunct
shows the result never depends on the previously captured frame at all. -/
theorem C8_capture_failure_not_contained :
    (CameraManager.capture_frame (fun x : Nat => x) (false, none) (some 42)
        = Except.error "cv2.error: (-215) !_src.empty() in rotate") ∧
    (∀ (rotate : Nat → Nat) (rr : Bool × Option Nat) (p q : Option Nat),
      CameraManager.capture_frame rotate rr p
        = CameraManager.capture_frame rotate rr q) := by
  exact ⟨rfl, fun rotate rr p q => rfl⟩
